import Mathlib

set_option maxRecDepth 16384

/-! Shallow embedding of the extraction engine of src/fields_extract.py.
Strings are Lean Strings, Python floats are modelled as rationals, and
each compiled Python regular expression of the source is transcribed into
a value of a small regex type RE whose backtracking matcher follows
Python re semantics: leftmost search position wins, alternation prefers
the left branch, greedy repetition prefers longer matches and lazy
repetition shorter ones, capture groups record the last binding, word
boundaries and multiline anchors are supported.  Every quantifier in the
source patterns ranges over a single character class, which keeps the
matcher structurally recursive and executable. -/

/-! Python character and string primitives.  pyWs models the whitespace
class of Python str regular expressions and str.strip restricted to the
code points that can actually occur in this pipeline (ASCII whitespace
plus NBSP). -/

def pyWs (c : Char) : Bool :=
  c == ' ' || c == '\t' || c == '\n' || c == '\r' ||
    c == Char.ofNat 11 || c == Char.ofNat 12 || c == Char.ofNat 160

def apoC : Char := Char.ofNat 39

def quoteC : Char := Char.ofNat 34

def isWordC (c : Char) : Bool := c.isAlpha || c.isDigit || c == '_'

def pyStrip (s : String) : String :=
  String.mk (((s.data.dropWhile (fun c => pyWs c)).reverse.dropWhile (fun c => pyWs c)).reverse)

def collapseCore : List Char → List Char
  | [] => []
  | [c] => if pyWs c then [' '] else [c]
  | c :: d :: cs =>
    if pyWs c then
      if pyWs d then collapseCore (d :: cs) else ' ' :: collapseCore (d :: cs)
    else c :: collapseCore (d :: cs)

/-- Model of re.sub of one-or-more whitespace by a single space followed
by str.strip, the idiom used throughout the source. -/
def collapseWs (s : String) : String := pyStrip (String.mk (collapseCore s.data))

def digitsOnly (s : String) : String := String.mk (s.data.filter Char.isDigit)

def stripAllWs (s : String) : String := String.mk (s.data.filter (fun c => !pyWs c))

def hasAsciiAlpha (s : String) : Bool := s.data.any Char.isAlpha

def natOfDigits (cs : List Char) : Nat := cs.foldl (fun n c => 10 * n + (c.toNat - 48)) 0

def natOfStr (s : String) : Nat := natOfDigits s.data

/-- Model of str.title restricted to ASCII cased characters. -/
def pyTitleAux : Bool → List Char → List Char
  | _, [] => []
  | prevAlpha, c :: cs =>
    (if c.isAlpha then (if prevAlpha then c.toLower else c.toUpper) else c) ::
      pyTitleAux c.isAlpha cs

def pyTitle (s : String) : String := String.mk (pyTitleAux false s.data)

def splitLinesAux (acc : List Char) : List Char → List String
  | [] => [String.mk acc.reverse]
  | '\r' :: '\n' :: cs => String.mk acc.reverse :: splitLinesAux [] cs
  | '\r' :: cs => String.mk acc.reverse :: splitLinesAux [] cs
  | '\n' :: cs => String.mk acc.reverse :: splitLinesAux [] cs
  | c :: cs => splitLinesAux (c :: acc) cs

/-- Model of str.splitlines for the line terminators occurring in this
pipeline; a trailing terminator does not produce a final empty line. -/
def pySplitlines (s : String) : List String :=
  match s.data with
  | [] => []
  | cs =>
    let ls := splitLinesAux [] cs
    match cs.getLast? with
    | some c => if c == '\n' || c == '\r' then ls.dropLast else ls
    | none => ls

def leadsList : List Char → List Char → Bool
  | [], _ => true
  | _ :: _, [] => false
  | p :: ps, c :: cs => p == c && leadsList ps cs

def hasSubList (pat : List Char) : List Char → Bool
  | [] => leadsList pat []
  | c :: cs => leadsList pat (c :: cs) || hasSubList pat cs

/-- Model of the Python substring containment test. -/
def hasSub (s pat : String) : Bool := hasSubList pat.data s.data

/-- Model of str.endswith applied to a single colon. -/
def endsColon (s : String) : Bool := s.data.getLast? == some ':'

def joinNl : List String → String
  | [] => ""
  | [s] => s
  | s :: t :: rest => s ++ "\n" ++ joinNl (t :: rest)

/-! The regex type and matcher. -/

inductive RE : Type where
  | eps : RE
  | cls (p : Char → Bool) : RE
  | cat (a b : RE) : RE
  | alt (a b : RE) : RE
  | grp (idx : Nat) (r : RE) : RE
  | rep (p : Char → Bool) (lo : Nat) (hi : Option Nat) (lazyQ : Bool) : RE
  | wordB : RE
  | bol : RE
  | eol : RE

abbrev GroupMap := List (Nat × String)

def firstSome (l : List Nat) (f : Nat → Option GroupMap) : Option GroupMap :=
  match l with
  | [] => none
  | n :: ns =>
    match f n with
    | some g => some g
    | none => firstSome ns f

def countRun (p : Char → Bool) : List Char → Nat
  | [] => 0
  | c :: cs => if p c then countRun p cs + 1 else 0

def matchRE : RE → Option Char → List Char → GroupMap →
    (Option Char → List Char → GroupMap → Option GroupMap) → Option GroupMap
  | .eps, prev, rem, g, k => k prev rem g
  | .cls p, _, rem, g, k =>
    match rem with
    | [] => none
    | c :: cs => if p c then k (some c) cs g else none
  | .cat a b, prev, rem, g, k =>
    matchRE a prev rem g (fun p2 r2 g2 => matchRE b p2 r2 g2 k)
  | .alt a b, prev, rem, g, k =>
    match matchRE a prev rem g k with
    | some g2 => some g2
    | none => matchRE b prev rem g k
  | .grp i r, prev, rem, g, k =>
    matchRE r prev rem g
      (fun p2 r2 g2 =>
        k p2 r2 ((i, String.mk (rem.take (rem.length - r2.length))) :: g2))
  | .rep p lo hi lz, prev, rem, g, k =>
    let cap := match hi with
      | none => countRun p rem
      | some h => min (countRun p rem) h
    if cap < lo then none
    else
      firstSome
        ((List.range (cap + 1 - lo)).map (fun j => if lz then lo + j else cap - j))
        (fun n =>
          k (if n == 0 then prev else some ((rem.take n).getLastD ' ')) (rem.drop n) g)
  | .wordB, prev, rem, g, k =>
    let pw := match prev with
      | none => false
      | some c => isWordC c
    let nw := match rem with
      | [] => false
      | c :: _ => isWordC c
    if pw != nw then k prev rem g else none
  | .bol, prev, rem, g, k =>
    match prev with
    | none => k prev rem g
    | some c => if c == '\n' then k prev rem g else none
  | .eol, prev, rem, g, k =>
    match rem with
    | [] => k prev rem g
    | c :: _ => if c == '\n' then k prev rem g else none

/-- Anchored match at position zero, the model of Pattern.match. -/
def reMatchG (r : RE) (s : String) : Option GroupMap :=
  matchRE r none s.data [] (fun _ _ g => some g)

def searchAux (r : RE) (prev : Option Char) : List Char → Nat → Option (Nat × GroupMap)
  | rem, pos =>
    match matchRE r prev rem [] (fun _ _ g => some g) with
    | some g => some (pos, g)
    | none =>
      match rem with
      | [] => none
      | c :: cs => searchAux r (some c) cs (pos + 1)

/-- Unanchored leftmost search, the model of Pattern.search; also returns
the start position of the match. -/
def reSearchPosG (r : RE) (s : String) : Option (Nat × GroupMap) :=
  searchAux r none s.data 0

def reSearchG (r : RE) (s : String) : Option GroupMap := (reSearchPosG r s).map (·.2)

def reTest (r : RE) (s : String) : Bool := (reSearchG r s).isSome

def grpO (g : GroupMap) (i : Nat) : Option String := (g.find? (fun x => x.1 == i)).map (·.2)

def grpD (g : GroupMap) (i : Nat) : String := (grpO g i).getD ""

/-- Prefix of the string before the leftmost match, the model of both
re.split followed by taking element zero and of re.sub deleting a match
that extends to the end of the string. -/
def cutBeforeFirst (r : RE) (s : String) : String :=
  match reSearchPosG r s with
  | none => s
  | some (i, _) => String.mk (s.data.take i)

/-! Constructors used when transcribing the source patterns. -/

def clsE (c : Char) : RE := .cls (fun x => x == c)

def clsI (c : Char) : RE := .cls (fun x => x.toLower == c.toLower)

def seqRE (l : List RE) : RE := l.foldr .cat .eps

def litCi (s : String) : RE := seqRE (s.data.map clsI)

def litEx (s : String) : RE := seqRE (s.data.map clsE)

def altL : List RE → RE
  | [] => .cls (fun _ => false)
  | [r] => r
  | r :: rs => .alt r (altL rs)

def optR (r : RE) : RE := .alt r .eps

def wsP : RE := .rep pyWs 1 none false

def wsS : RE := .rep pyWs 0 none false

def digR (lo : Nat) (hi : Option Nat) : RE := .rep Char.isDigit lo hi false

def notNl : Char → Bool := fun c => !(c == '\n')

def digComma : Char → Bool := fun c => c.isDigit || c == ','

def digDot : Char → Bool := fun c => c.isDigit || c == '.'

def alphaSp : Char → Bool := fun c => c.isAlpha || c == ' '

/-! Transcriptions of the compiled patterns of the source.  Names follow
the module-level pattern tables of fields_extract.py. -/

def apiPat1 : RE :=
  seqRE [litCi "API", wsS, .cls (fun c => c == '#' || c.toLower == 'n'),
    .rep (fun c => c.toLower == 'o' || c == '.') 0 none false, wsS,
    .rep (fun c => c == ':' || pyWs c) 1 none false,
    .grp 1 (seqRE [.cls Char.isDigit,
      .rep (fun c => c.isDigit || pyWs c || c == '-') 8 (some 19) false])]

def apiPat2 : RE :=
  seqRE [litCi "API", wsS, clsE ':', wsS,
    .grp 1 (seqRE [.cls Char.isDigit,
      .rep (fun c => c.isDigit || pyWs c || c == '-') 8 (some 19) false])]

def apiPat3 : RE :=
  seqRE [.wordB, litCi "API", .wordB, wsS,
    .grp 1 (seqRE [.cls Char.isDigit,
      .rep (fun c => c.isDigit || c == '-') 8 (some 18) false])]

def apiPats : List RE := [apiPat1, apiPat2, apiPat3]

def wnumPat1 : RE :=
  seqRE [litCi "NDIC", wsP, litCi "File", wsP, litCi "Number", wsS, clsE ':', wsS,
    .grp 1 (digR 1 none)]

def wnumPat2 : RE :=
  seqRE [litCi "ND", wsP, litCi "Well", wsP, litCi "File", wsS, clsE '#', wsS,
    .rep (fun c => c == ':' || pyWs c) 1 none false, .grp 1 (digR 1 none)]

def wnumPat3 : RE :=
  seqRE [litCi "Well", wsP, litCi "File", wsP, litCi "No", optR (clsE '.'), wsS,
    .rep (fun c => c == ':' || pyWs c) 1 none false, .grp 1 (digR 1 none)]

def wnumPat4 : RE :=
  seqRE [litCi "Well", wsP, litCi "or", wsP, litCi "Facility", wsP, litCi "No",
    optR (clsE '.'), wsS, .rep (fun c => c == ':' || pyWs c) 1 none false,
    .grp 1 (digR 1 none)]

def wnumPats : List RE := [wnumPat1, wnumPat2, wnumPat3, wnumPat4]

def opPat1 : RE :=
  seqRE [litCi "Well", wsP, litCi "Operator", wsS, clsE ':', wsS,
    .grp 1 (.rep notNl 1 none false)]

def opPat2 : RE :=
  seqRE [.bol, litCi "Operator", wsS, clsE ':', wsS, .grp 1 (.rep notNl 1 none false)]

def opPats : List RE := [opPat1, opPat2]

def coPat1 : RE :=
  seqRE [.bol, litCi "County", wsS, clsE ':', wsS,
    .grp 1 (.rep alphaSp 1 none true), .eol]

def coPat2 : RE :=
  seqRE [litCi "County", clsE ',', wsS, litCi "State", wsS, clsE ':', wsS,
    .grp 1 (.rep alphaSp 1 none true), wsP, litCi "County"]

def coPats : List RE := [coPat1, coPat2]

def shlPat1 : RE :=
  seqRE [litCi "Well", wsP, litCi "Surface", wsP, litCi "Hole", wsP, litCi "Location",
    wsS, clsE '(', litCi "SHL", clsE ')', wsS, clsE ':', wsS,
    .grp 1 (.rep notNl 1 none false)]

def shlPat2 : RE :=
  seqRE [litCi "Surface", wsP, optR (seqRE [litCi "Hole", wsP]), litCi "Location",
    wsS, clsE ':', wsS, .grp 1 (.rep notNl 1 none false)]

def shlPat3 : RE :=
  seqRE [.wordB, litCi "SHL", wsS, clsE ':', wsS, .grp 1 (.rep notNl 1 none false)]

def shlPats : List RE := [shlPat1, shlPat2, shlPat3]

def latPat1 : RE :=
  seqRE [litCi "Lat", optR (litCi "itude"), wsS,
    .rep (fun c => c == ':' || pyWs c) 1 none false,
    .grp 1 (seqRE [digR 1 (some 2), clsE '°', wsS, digR 1 (some 2), clsE apoC, wsS,
      .rep digDot 1 none false, wsS, clsI 'n'])]

def latPat2 : RE :=
  seqRE [litCi "Lat", optR (litCi "itude"), wsS,
    .rep (fun c => c == ':' || pyWs c) 1 none false,
    .grp 1 (seqRE [digR 1 (some 3), clsE '.', digR 1 none])]

def latPats : List RE := [latPat1, latPat2]

def lonPat1 : RE :=
  seqRE [litCi "Lon", optR (litCi "gitude"), wsS,
    .rep (fun c => c == ':' || pyWs c) 1 none false,
    .grp 1 (seqRE [digR 1 (some 3), clsE '°', wsS, digR 1 (some 2), clsE apoC, wsS,
      .rep digDot 1 none false, wsS, clsI 'w'])]

def lonPat2 : RE :=
  seqRE [litCi "Lon", optR (litCi "gitude"), wsS,
    .rep (fun c => c == ':' || pyWs c) 1 none false,
    .grp 1 (seqRE [digR 1 (some 3), clsE '.', digR 1 none])]

def lonPats : List RE := [lonPat1, lonPat2]

def datumPat1 : RE :=
  seqRE [litCi "Datum", wsS, clsE ':', wsS,
    .grp 1 (.rep (fun c => !(c == '\n' || c == ':')) 2 (some 30) false)]

def datumPat2 : RE :=
  .grp 1 (.alt (seqRE [litCi "NAD", wsS, digR 1 none])
    (seqRE [litCi "WGS", wsS, digR 1 none]))

def datumPats : List RE := [datumPat1, datumPat2]

def opStopRE : RE :=
  seqRE [wsP,
    altL [litCi "Kick-off", litCi "Rig", litCi "API", litCi "Telephone",
      seqRE [litCi "Well", wsP, litCi "Name"],
      seqRE [litCi "Job", wsP, litCi "Type"], litCi "Enseco"],
    wsS, .cls (fun c => c == '#' || c == ':')]

def opJunkStartRE : RE :=
  seqRE [.bol,
    altL [litCi "Kick-off", seqRE [litCi "Rig", .wordB],
      seqRE [litCi "Job", wsP, litCi "Type"], litCi "Enseco",
      seqRE [litCi "Well", wsP, litCi "Name"], litCi "Telephone"],
    wsS, .cls (fun c => c == '#' || c == ':' || c.isDigit)]

def ws3RE : RE := .rep pyWs 3 none false

def opStopWordRE : RE :=
  seqRE [.bol,
    altL [litCi "Well", litCi "Lease", litCi "Field", litCi "County", litCi "State",
      litCi "None"],
    .eol]

def coBoundRE : RE :=
  seqRE [wsS, altL [litEx "State", litEx "Section", litEx "Township",
    litEx "Directional", clsE ':']]

def coShapeRE : RE := seqRE [.bol, .rep alphaSp 2 (some 30) false, .eol]

def nad83RE : RE :=
  seqRE [litCi "North", wsP, litCi "American", wsP, litCi "Datum", wsP, litEx "1983"]

def nad27RE : RE :=
  seqRE [litCi "North", wsP, litCi "American", wsP, litCi "Datum", wsP, litEx "1927"]

def elevRE : RE :=
  seqRE [.cls Char.isDigit, .rep notNl 0 none false,
    altL [litCi "ft", litCi "usft", litCi "RKB", litCi "WELL", clsE '@']]

def nadStartRE : RE :=
  seqRE [.bol, .grp 1 (seqRE [altL [litCi "NAD", litCi "WGS", litCi "NAO"], wsS,
    digR 2 (some 4)])]

def datumKeyRE : RE :=
  altL [litCi "NAD", litCi "WGS", seqRE [litCi "North", wsP, litCi "American"],
    litCi "GRS", litCi "NAVD"]

def parenNoiseRE : RE :=
  .cls (fun c => c == '(' || c == ')' || c == '@' || c == '\\')

def apiTrailRE : RE :=
  seqRE [wsP, litCi "API", wsS, clsE ':', .rep notNl 0 none false, .eol]

def fileTrailRE : RE :=
  seqRE [wsP, litCi "Well", wsP, litCi "File", wsP, litCi "No", optR (clsE '.'),
    optR (clsE ':'), .rep notNl 0 none false, .eol]

def metaTrailRE : RE :=
  seqRE [wsP,
    altL [seqRE [litCi "Directional", wsP, litCi "Drillers"], litCi "Field",
      seqRE [litCi "Pad", wsP, litCi "OD"], seqRE [litCi "Company", wsP, litCi "Man"]],
    .alt (seqRE [wsS, clsE ':']) .eps, wsS, .cls (fun c => !pyWs c),
    .rep notNl 0 none false, .eol]

def junkNameRE : RE :=
  seqRE [.alt .bol (seqRE [.bol, .rep notNl 0 (some 5) false]),
    .grp 1 (altL [litCi "Location",
      seqRE [litCi "Field", wsS, clsE '/', wsS, litCi "Prospect"],
      seqRE [litCi "Directional", wsP, litCi "Drillers"],
      seqRE [litCi "Mud", wsP, litCi "Record"]]),
    wsS, optR (clsE ':'), .eol]

def stimHdrRE : RE := seqRE [litCi "Date", wsP, litCi "Stimulat"]

def treatHdrRE : RE := seqRE [litCi "Type", wsP, litCi "Treatment"]

def detailsRE : RE := seqRE [.bol, litCi "Details", wsS, .eol]

def stimRowRE : RE :=
  seqRE [.grp 1 (seqRE [digR 1 (some 2), clsE '/', digR 1 (some 2), clsE '/',
      digR 4 (some 4)]),
    wsP, .grp 2 (seqRE [.cls Char.isAlpha, .rep alphaSp 1 (some 30) true]),
    wsP, .grp 3 (digR 1 none), wsP, .grp 4 (digR 1 none), wsP, .grp 5 (digR 1 none),
    wsP, .grp 6 (.rep digComma 1 none false), wsP,
    .grp 7 (.rep Char.isAlpha 1 none false)]

def treatRowRE : RE :=
  seqRE [.bol, .grp 1 (seqRE [.cls Char.isAlpha, .rep alphaSp 1 (some 30) true]),
    wsP, .grp 2 (.rep digComma 1 none false), wsP, .grp 3 (.rep digComma 1 none false),
    optR (seqRE [wsP, .grp 4 (.rep digDot 1 none false)]),
    optR (seqRE [wsP, .grp 5 (.rep digDot 1 none false)])]

def dmsRE : RE :=
  seqRE [.grp 1 (digR 1 (some 3)), wsS, clsE '°', wsS, .grp 2 (digR 1 (some 2)),
    clsE apoC, wsS, .grp 3 (.rep digDot 1 none false), wsS,
    .grp 4 (.cls (fun c => c == 'N' || c == 'S' || c == 'E' || c == 'W' ||
      c == 'n' || c == 's' || c == 'e' || c == 'w'))]

/-! Python float literals and helpers. -/

def pyFloatDigits? (s : String) : Option ℚ :=
  let cs := s.data
  if cs.isEmpty then none
  else if !(cs.all (fun c => c.isDigit || c == '.')) then none
  else if 1 < (cs.filter (fun c => c == '.')).length then none
  else if (cs.filter Char.isDigit).isEmpty then none
  else
    let ip := cs.takeWhile (fun c => !(c == '.'))
    let fp := (cs.dropWhile (fun c => !(c == '.'))).drop 1
    some ((natOfDigits ip : ℚ) + (natOfDigits fp : ℚ) / ((10 : ℚ) ^ fp.length))

def removeCommas (s : String) : String := String.mk (s.data.filter (fun c => !(c == ',')))

/-- Model of _to_float: None or the empty string gives none, otherwise the
comma-free text parsed as a float, a parse failure giving none. -/
def to_float (s? : Option String) : Option ℚ :=
  match s? with
  | none => none
  | some s => if s = "" then none else pyFloatDigits? (removeCommas s)

/-- Round to the nearest integer with ties to even, as Python round does. -/
def roundHalfEven (q : ℚ) : ℤ :=
  let f := ⌊q⌋
  let r := q - f
  if r < 1 / 2 then f
  else if 1 / 2 < r then f + 1
  else if f % 2 = 0 then f else f + 1

/-- Model of round(x, 7). -/
def round7 (q : ℚ) : ℚ := (roundHalfEven (q * 10000000) : ℚ) / 10000000

/-- Model of str.upper over ASCII data. -/
def pyUpper (s : String) : String := String.mk (s.data.map Char.toUpper)

/-- Model of _dms_to_decimal.  In the source float(secs) can raise
ValueError when the captured seconds group carries more than one dot;
that path is modelled as none here. -/
def dms_to_decimal (s : String) : Option ℚ :=
  match reMatchG dmsRE (pyStrip s) with
  | none => none
  | some g =>
    match pyFloatDigits? (grpD g 1), pyFloatDigits? (grpD g 2),
        pyFloatDigits? (grpD g 3) with
    | some deg, some mins, some secs =>
      let dd := deg + mins / 60 + secs / 3600
      let dir := grpD g 4
      let dd2 := if pyUpper dir = "S" ∨ pyUpper dir = "W" then -dd else dd
      some (round7 dd2)
    | _, _, _ => none

/-! API normalization. -/

def fmt10 (d : List Char) : String :=
  String.mk (d.take 2 ++ '-' :: ((d.drop 2).take 3 ++ '-' :: (d.drop 5).take 5))

def fmt14 (d : List Char) : String :=
  String.mk (d.take 2 ++ '-' :: ((d.drop 2).take 3 ++ '-' ::
    ((d.drop 5).take 5 ++ '-' :: ((d.drop 10).take 2 ++ '-' :: d.drop 12))))

def apiDigits (raw : String) : List Char := raw.data.filter Char.isDigit

/-- Model of _normalize_api. -/
def normalize_api (raw : String) : Option String :=
  let candidate := stripAllWs raw
  if hasAsciiAlpha candidate then none
  else
    let digits := apiDigits raw
    if digits.length < 8 then none
    else if digits.length = 14 then some (fmt14 digits)
    else if digits.length = 10 then some (fmt10 digits)
    else some candidate

/-! Coordinate handling. -/

/-- Model of the latitude plausibility band of extract_well_row. -/
def filterLat (l? : Option ℚ) : Option ℚ :=
  match l? with
  | none => none
  | some l => if ¬ (45 ≤ l ∧ l ≤ 50) then none else some l

/-- Model of the longitude sign correction and band of extract_well_row. -/
def adjustLon (l? : Option ℚ) : Option ℚ :=
  match l? with
  | none => none
  | some l =>
    if 96 ≤ l ∧ l ≤ 105 then some (-l)
    else if ¬ (-105 ≤ l ∧ l ≤ -96) then none
    else some l

/-- Model of _to_coord inside extract_well_row. -/
def to_coord (s? : Option String) : Option ℚ :=
  match s? with
  | none => none
  | some s =>
    if s = "" then none
    else if s.data.any (fun c => c == '°') then dms_to_decimal s
    else pyFloatDigits? s

/-! Documents and field merging. -/

structure Page where
  text : String
  fields : List (String × String)
deriving Repr, DecidableEq

structure Doc where
  pdf_filename : String
  well_name : String
  pages : List Page
deriving Repr, DecidableEq

def lookupField (fs : List (String × String)) (k : String) : Option String :=
  (fs.find? (fun x => x.1 == k)).map (·.2)

/-- Flattened field view of collect_page_data: later pages override. -/
def mergedGet (pages : List Page) (k : String) : Option String :=
  pages.reverse.findSome? (fun p => lookupField p.fields k)

/-- Non-empty page texts in order, as collect_page_data gathers them. -/
def allTexts (pages : List Page) : List String :=
  pages.filterMap (fun p => if pyStrip p.text = "" then none else some p.text)

/-- Python truthiness of an optional string, for the or-chains. -/
def truthy (o : Option String) : Option String :=
  match o with
  | none => none
  | some s => if s = "" then none else some s

/-- Model of _search: first text, then first pattern whose match has a
nonempty whitespace-collapsed first group. -/
def searchPats (pats : List RE) (texts : List String) : Option String :=
  texts.findSome? (fun t => pats.findSome? (fun p =>
    match reSearchG p t with
    | none => none
    | some g =>
      let val := collapseWs (grpD g 1)
      if val = "" then none else some val))

/-! Identity resolution. -/

/-- Model of _valid_well_num inside extract_well_row. -/
def valid_well_num (val : Option String) : Option String :=
  match val with
  | none => none
  | some v =>
    if v = "" then none
    else
      let digits := digitsOnly v
      if digits ≠ "" ∧ 1000 ≤ natOfStr digits ∧ natOfStr digits ≤ 199999 then some digits
      else none

/-- Model of pathlib Path(...).stem for the plain names this engine sees:
the last path component without its final nonempty suffix. -/
def pathStem (p : String) : String :=
  let name := String.mk ((p.data.reverse.takeWhile (fun c => !(c == '/'))).reverse)
  match name.data.reverse.findIdx? (fun c => c == '.') with
  | none => name
  | some j =>
    let i := name.length - 1 - j
    if i = 0 ∨ i = name.length - 1 then name
    else String.mk (name.data.take i)

def resolveRawApi (doc : Doc) : Option String :=
  truthy (mergedGet doc.pages "API #") <|> truthy (mergedGet doc.pages "API Number") <|>
    truthy (mergedGet doc.pages "API") <|> searchPats apiPats (allTexts doc.pages)

/-- The normalized API of a document, none when nothing was recovered. -/
def resolveApi (doc : Doc) : Option String :=
  match resolveRawApi doc with
  | none => none
  | some raw => normalize_api raw

/-- The resolved well number: the first validated candidate, else the
digits of the source file name stem (possibly empty). -/
def resolveWellNumber (doc : Doc) : String :=
  match valid_well_num (mergedGet doc.pages "NDIC File Number") <|>
      valid_well_num (mergedGet doc.pages "ND Well File #") <|>
      valid_well_num (mergedGet doc.pages "Well or Facility No") <|>
      valid_well_num (searchPats wnumPats (allTexts doc.pages)) with
  | some w => w
  | none => digitsOnly (pathStem doc.pdf_filename)

/-! Operator, county, datum and well-name cleaning. -/

def subLeadingLowerWs (s : String) : String :=
  match s.data with
  | c :: d :: cs =>
    if c.isLower ∧ pyWs d then String.mk ((d :: cs).dropWhile pyWs) else s
  | _ => s

def fixLowerUpper (s : String) : String :=
  match s.data with
  | c :: d :: cs => if c.isLower ∧ d.isUpper then String.mk (c.toUpper :: d :: cs) else s
  | _ => s

def opJunkStart (s : String) : Bool := (reMatchG opJunkStartRE s).isSome

def opStopWord (s : String) : Bool := (reMatchG opStopWordRE s).isSome

/-- The per-field candidate cleaning of _first_valid_operator. -/
def opCandidate (val : String) : Option String :=
  if val = "" then none
  else if opJunkStart (pyStrip val) then none
  else
    let c1 := cutBeforeFirst opStopRE val
    let c2 := cutBeforeFirst ws3RE c1
    let c3 := collapseWs c2
    let c4 := subLeadingLowerWs c3
    let c5 := fixLowerUpper c4
    if c5 ≠ "" ∧ ¬ endsColon c5 ∧ 5 ≤ c5.length then
      if opStopWord c5 then none else some c5
    else none

/-- Model of _first_valid_operator. -/
def first_valid_operator (pages : List Page) (texts : List String) : Option String :=
  match pages.findSome? (fun p =>
      ["Well Operator", "Operator"].findSome? (fun k =>
        opCandidate ((lookupField p.fields k).getD ""))) with
  | some v => some v
  | none =>
    match searchPats opPats texts with
    | none => none
    | some val =>
      if ¬ endsColon val ∧ ¬ opJunkStart (pyStrip val) then
        let v1 := subLeadingLowerWs val
        let v2 := fixLowerUpper v1
        if 5 ≤ v2.length ∧ ¬ opStopWord v2 then some v2 else none
      else none

/-- Model of the county cleaning of extract_well_row. -/
def cleanCounty (c0 : Option String) : Option String :=
  match c0 with
  | none => none
  | some c =>
    let c1 := cutBeforeFirst coBoundRE c
    let c2 := pyTitle (collapseWs c1)
    if (reMatchG coShapeRE c2).isSome then some c2 else none

def replaceNaoAux : List Char → List Char
  | a :: b :: c :: rest =>
    if a.toLower == 'n' && b.toLower == 'a' && c.toLower == 'o' then
      'N' :: 'A' :: 'D' :: replaceNaoAux rest
    else a :: replaceNaoAux (b :: c :: rest)
  | l => l

def replaceNaoCi (s : String) : String := String.mk (replaceNaoAux s.data)

/-- Model of _clean_datum. -/
def clean_datum (d? : Option String) : Option String :=
  match d? with
  | none => none
  | some d0 =>
    if d0 = "" then none
    else
      let d := collapseWs d0
      if reTest nad83RE d then some "NAD83"
      else if reTest nad27RE d then some "NAD27"
      else if reTest elevRE d then none
      else
        match reMatchG nadStartRE (pyStrip d) with
        | some g => some (replaceNaoCi (pyStrip (grpD g 1)))
        | none =>
          if reTest datumKeyRE d then
            if d.length ≤ 25 ∧ ¬ reTest parenNoiseRE d then some d else none
          else none

/-- Model of the well-name cleaning block of extract_well_row: collapse
whitespace, cut trailing metadata, clear label-only residues to the
empty string. -/
def cleanWellName (raw : String) : String :=
  let w1 := collapseWs raw
  let w2 := cutBeforeFirst apiTrailRE w1
  let w3 := cutBeforeFirst fileTrailRE w2
  let w4 := cutBeforeFirst metaTrailRE w3
  let w5 := pyStrip w4
  if endsColon w5 ∨ (reMatchG junkNameRE w5).isSome then "" else w5

/-! The well record. -/

structure WellRecord where
  api_number : String
  well_name : String
  well_number : String
  operator : Option String
  county : Option String
  state : String
  shl_desc : Option String
  latitude : Option ℚ
  longitude : Option ℚ
  datum : Option String
  pdf_filename : String
deriving Repr, DecidableEq

/-- Model of extract_well_row. -/
def extract_well_row (doc : Doc) : WellRecord :=
  let texts := allTexts doc.pages
  let api := resolveApi doc
  let wellNumber := resolveWellNumber doc
  let apiKey := match truthy api with
    | some a => a
    | none => if wellNumber = "" then "UNKNOWN" else "NDIC-" ++ wellNumber
  let latFieldVal := (mergedGet doc.pages "Latitude").getD ""
  { api_number := apiKey
    well_name := cleanWellName doc.well_name
    well_number := wellNumber
    operator := first_valid_operator doc.pages texts
    county := cleanCounty (truthy (mergedGet doc.pages "County") <|>
      searchPats coPats texts)
    state := "ND"
    shl_desc := truthy (mergedGet doc.pages "Well Surface Hole Location (SHL)") <|>
      truthy (mergedGet doc.pages "Surface Location") <|>
      truthy (mergedGet doc.pages "SHL") <|> searchPats shlPats texts
    latitude := filterLat (to_coord (searchPats latPats (latFieldVal :: texts)))
    longitude := adjustLon (to_coord (searchPats lonPats (latFieldVal :: texts)))
    datum := clean_datum (truthy (mergedGet doc.pages "Datum") <|>
      searchPats datumPats (latFieldVal :: texts))
    pdf_filename := doc.pdf_filename }

/-! The stimulation table parser. -/

structure StimRec where
  date_stimulated : String
  formation : String
  top_ft : Option ℚ
  bottom_ft : Option ℚ
  stages : Nat
  volume : Option ℚ
  volume_units : String
  treatment_type : Option String
  acid_percent : Option ℚ
  lbs_proppant : Option ℚ
  max_pressure : Option ℚ
  max_rate : Option ℚ
  details : Option String
deriving Repr, DecidableEq

def stimHdrB (l : String) : Bool := reTest stimHdrRE l

def treatHdrB (l : String) : Bool := reTest treatHdrRE l

def detailsB (l : String) : Bool := reTest detailsRE l

def blankB (l : String) : Bool := pyStrip l == ""

/-- The draft record built from a matched data row of parse_stimulation. -/
def mkStimRec (g : GroupMap) : StimRec :=
  { date_stimulated := grpD g 1
    formation := pyStrip (grpD g 2)
    top_ft := to_float (grpO g 3)
    bottom_ft := to_float (grpO g 4)
    stages := natOfStr (grpD g 5)
    volume := to_float (grpO g 6)
    volume_units := grpD g 7
    treatment_type := none
    acid_percent := none
    lbs_proppant := none
    max_pressure := none
    max_rate := none
    details := none }

/-- One treatment line applied to the draft record (the Type Treatment
branch of parse_stimulation): type label plus up to four numeric fields,
assigned right-aligned by the count of present values. -/
def applyTreat (rec : StimRec) (t : String) : StimRec :=
  match reMatchG treatRowRE (pyStrip t) with
  | none => rec
  | some g =>
    let nums := [to_float (grpO g 2), to_float (grpO g 3), to_float (grpO g 4),
      to_float (grpO g 5)]
    let nn := nums.filterMap id
    let rec2 := { rec with treatment_type := some (pyStrip (grpD g 1)) }
    if nn.length = 4 then
      { rec2 with
        acid_percent := nn.get? 0
        lbs_proppant := nn.get? 1
        max_pressure := nn.get? 2
        max_rate := nn.get? 3 }
    else if nn.length = 3 then
      { rec2 with
        lbs_proppant := nn.get? 0
        max_pressure := nn.get? 1
        max_rate := nn.get? 2 }
    else if 1 ≤ nn.length then { rec2 with lbs_proppant := nn.get? 0 }
    else rec2

def finalizeRec (rec : StimRec) (parts : List String) : StimRec :=
  if parts.isEmpty then rec
  else { rec with details := some (joinNl parts) }

inductive SMode : Type where
  | seek : SMode
  | body (rec : StimRec) (parts : List String) (inD : Bool) : SMode

/-- The line scanner of parse_stimulation: seek a Date Stimulated header,
skip blank and repeated header lines, try the positional row grammar on
the next line (a failure resumes the seek just past it), then scan the
record body for treatment rows and a Details block.  The scanner is
fuel-indexed to remain structurally recursive; parse_stimulation passes
fuel that the scan cannot exhaust. -/
def stimLoop : Nat → SMode → List String → List StimRec
  | 0, .seek, _ => []
  | 0, .body rec parts _, _ => [finalizeRec rec parts]
  | _ + 1, .seek, [] => []
  | fuel + 1, .seek, l :: r =>
    if stimHdrB l then
      match r.dropWhile (fun x => blankB x || stimHdrB x) with
      | [] => []
      | d :: rest =>
        match reSearchG stimRowRE d with
        | none => stimLoop fuel .seek rest
        | some g => stimLoop fuel (.body (mkStimRec g) [] false) rest
    else stimLoop fuel .seek r
  | _ + 1, .body rec parts _, [] => [finalizeRec rec parts]
  | fuel + 1, .body rec parts inD, ln :: rest =>
    if stimHdrB ln then finalizeRec rec parts :: stimLoop fuel .seek (ln :: rest)
    else if treatHdrB ln then
      match rest.dropWhile blankB with
      | [] => [finalizeRec rec parts]
      | t :: rest2 => stimLoop fuel (.body (applyTreat rec t) parts inD) rest2
    else if detailsB ln then stimLoop fuel (.body rec parts true) rest
    else if inD && !(pyStrip ln == "") then
      stimLoop fuel (.body rec (parts ++ [pyStrip ln]) inD) rest
    else stimLoop fuel (.body rec parts inD) rest

/-- Model of parse_stimulation. -/
def parse_stimulation (pageText : String) : List StimRec :=
  let ls := pySplitlines pageText
  stimLoop (2 * ls.length + 2) .seek ls

/-! The wells table row (SQL NULL as none) and the merge policy of the
upsert in process_json. -/

structure WellsRow where
  api_number : String
  well_name : Option String
  well_number : Option String
  operator : Option String
  county : Option String
  state : Option String
  shl_desc : Option String
  latitude : Option ℚ
  longitude : Option ℚ
  datum : Option String
  pdf_filename : Option String
deriving Repr, DecidableEq

/-- The bound parameter row of the wells INSERT in process_json: the
string-typed record fields arrive as non-NULL values (the empty string
included), the optional ones as NULL when absent. -/
def insertRow (r : WellRecord) : WellsRow :=
  { api_number := r.api_number
    well_name := some r.well_name
    well_number := some r.well_number
    operator := r.operator
    county := r.county
    state := some r.state
    shl_desc := r.shl_desc
    latitude := r.latitude
    longitude := r.longitude
    datum := r.datum
    pdf_filename := some r.pdf_filename }

/-- The ON CONFLICT DO UPDATE SET clause of the wells upsert: w is the
stored row (wells), e the incoming row (excluded).  In SQL, LENGTH(NULL)
is NULL and a NULL comparison falls to the ELSE branch; the columns
api_number, state and pdf_filename appear in no SET clause and keep
their stored values. -/
def mergeOnConflict (w e : WellsRow) : WellsRow :=
  { api_number := w.api_number
    well_name :=
      match e.well_name with
      | none => w.well_name
      | some s => if (w.well_name.getD "").length < s.length then some s else w.well_name
    well_number := w.well_number <|> e.well_number
    operator := w.operator <|> e.operator
    county := w.county <|> e.county
    state := w.state
    shl_desc := w.shl_desc <|> e.shl_desc
    latitude := w.latitude <|> e.latitude
    longitude := w.longitude <|> e.longitude
    datum := w.datum <|> e.datum
    pdf_filename := w.pdf_filename }

structure StimInsert where
  api_number : String
  stim : StimRec
deriving Repr, DecidableEq

/-- The stimulation rows process_json inserts for one document: pages
whose text is nonempty and contains the literal Date Stimulat are
parsed, and every record is keyed by the api_number of the document's
resolved well record. -/
def stimInserts (doc : Doc) : List StimInsert :=
  let apiKey := (extract_well_row doc).api_number
  (doc.pages.filter (fun p => !(p.text == "") && hasSub p.text "Date Stimulat")).flatMap
    (fun p => (parse_stimulation p.text).map (fun r => ⟨apiKey, r⟩))

/-! Concrete inputs used by the claim theorems below. -/

def storedRowC1 : WellsRow :=
  { api_number := "33-053-04383"
    well_name := some "WELL A"
    well_number := none
    operator := some "Acme Oil"
    county := none
    state := some "ND"
    shl_desc := none
    latitude := none
    longitude := none
    datum := none
    pdf_filename := none }

def incomingRowC1 : WellsRow :=
  { api_number := "33-053-04383"
    well_name := some "WELL A UNIT 2"
    well_number := none
    operator := none
    county := none
    state := some "ND"
    shl_desc := none
    latitude := none
    longitude := none
    datum := none
    pdf_filename := some "doc.pdf" }

def storedRowC10 : WellsRow :=
  { api_number := "NDIC-12345"
    well_name := some "WELL B"
    well_number := none
    operator := none
    county := none
    state := none
    shl_desc := none
    latitude := none
    longitude := none
    datum := none
    pdf_filename := none }

def incomingRowC10 : WellsRow :=
  { api_number := "NDIC-12345"
    well_name := some "WELL B"
    well_number := none
    operator := none
    county := none
    state := some "ND"
    shl_desc := none
    latitude := none
    longitude := none
    datum := none
    pdf_filename := some "b.pdf" }

/-- Claim C10: on an upsert of an existing key, the stored api_number,
state and pdf_filename columns are never modified (no SET clause touches
them), whatever the incoming values, even when the stored value is null. -/
theorem claim_C10 (w e : WellsRow) :
    (mergeOnConflict w e).api_number = w.api_number ∧
    (mergeOnConflict w e).state = w.state ∧
    (mergeOnConflict w e).pdf_filename = w.pdf_filename :=
  ⟨rfl, rfl, rfl⟩

/-- Claim C10 witness at concrete rows with a null stored state and
pdf_filename and non-null incoming values. -/
theorem claim_C10_witness :
    (mergeOnConflict storedRowC10 incomingRowC10).api_number = "NDIC-12345" ∧
    (mergeOnConflict storedRowC10 incomingRowC10).state = none ∧
    (mergeOnConflict storedRowC10 incomingRowC10).pdf_filename = none := by
  have h := claim_C10 storedRowC10 incomingRowC10
  exact ⟨h.1.trans rfl, h.2.1.trans rfl, h.2.2.trans rfl⟩

/-- Claim C1 fails as stated: pdf_filename does not follow the
keep-existing-unless-null policy; with a null stored pdf_filename and a
non-null incoming one, the upsert keeps null instead of taking the
incoming value, because pdf_filename has no SET clause. -/
theorem claim_C1_counterexample :
    storedRowC1.pdf_filename = none ∧
    incomingRowC1.pdf_filename = some "doc.pdf" ∧
    (mergeOnConflict storedRowC1 incomingRowC1).pdf_filename ≠ some "doc.pdf" := by
  refine ⟨rfl, rfl, ?_⟩
  decide

/-- Claim C1 (amended): well_name is replaced exactly when the incoming
value is strictly longer than the stored one (a stored null counts as
length zero, an incoming null never replaces); well_number, operator,
county, shl_desc, latitude, longitude and datum keep the stored value
when it is non-null and otherwise take the incoming value; pdf_filename
is never modified by the upsert. -/
theorem claim_C1 (w e : WellsRow) :
    (∀ s t, e.well_name = some s → w.well_name = some t →
      (mergeOnConflict w e).well_name =
        if t.length < s.length then some s else some t) ∧
    (∀ s, e.well_name = some s → w.well_name = none →
      (mergeOnConflict w e).well_name = if 0 < s.length then some s else none) ∧
    (e.well_name = none → (mergeOnConflict w e).well_name = w.well_name) ∧
    (w.well_number = none → (mergeOnConflict w e).well_number = e.well_number) ∧
    (∀ v, w.well_number = some v → (mergeOnConflict w e).well_number = some v) ∧
    (w.operator = none → (mergeOnConflict w e).operator = e.operator) ∧
    (∀ v, w.operator = some v → (mergeOnConflict w e).operator = some v) ∧
    (w.county = none → (mergeOnConflict w e).county = e.county) ∧
    (∀ v, w.county = some v → (mergeOnConflict w e).county = some v) ∧
    (w.shl_desc = none → (mergeOnConflict w e).shl_desc = e.shl_desc) ∧
    (∀ v, w.shl_desc = some v → (mergeOnConflict w e).shl_desc = some v) ∧
    (w.latitude = none → (mergeOnConflict w e).latitude = e.latitude) ∧
    (∀ v, w.latitude = some v → (mergeOnConflict w e).latitude = some v) ∧
    (w.longitude = none → (mergeOnConflict w e).longitude = e.longitude) ∧
    (∀ v, w.longitude = some v → (mergeOnConflict w e).longitude = some v) ∧
    (w.datum = none → (mergeOnConflict w e).datum = e.datum) ∧
    (∀ v, w.datum = some v → (mergeOnConflict w e).datum = some v) ∧
    (mergeOnConflict w e).pdf_filename = w.pdf_filename := by
  refine ⟨?_, ?_, ?_, ?_, ?_, ?_, ?_, ?_, ?_, ?_, ?_, ?_, ?_, ?_, ?_, ?_, ?_, rfl⟩ <;>
    intros <;> simp_all [mergeOnConflict, Option.getD]

/-- Claim C1 witness at the merge example of the spec: the longer
incoming well name replaces, the stored operator survives an incoming
null, and the null stored pdf_filename stays null. -/
theorem claim_C1_witness :
    (mergeOnConflict storedRowC1 incomingRowC1).well_name = some "WELL A UNIT 2" ∧
    (mergeOnConflict storedRowC1 incomingRowC1).operator = some "Acme Oil" ∧
    (mergeOnConflict storedRowC1 incomingRowC1).pdf_filename = none := by
  have h := claim_C1 storedRowC1 incomingRowC1
  refine ⟨?_, ?_, ?_⟩
  · have h1 := h.1 "WELL A UNIT 2" "WELL A" rfl rfl
    rw [h1]
    decide
  · exact h.2.2.2.2.2.2.1 "Acme Oil" rfl
  · exact h.2.2.2.2.2.2.2.2.2.2.2.2.2.2.2.2.2.trans rfl

/-- Claim C6: a latitude outside the band 45..50 is discarded (absent,
never clamped); a positive longitude inside 96..105 is negated to signed
West; a longitude in neither 96..105 nor -105..-96 is discarded; 101.5
becomes -101.5, and 47.0 as a longitude is discarded. -/
theorem claim_C6 (l : ℚ) :
    (¬ (45 ≤ l ∧ l ≤ 50) → filterLat (some l) = none) ∧
    (96 ≤ l → l ≤ 105 → adjustLon (some l) = some (-l)) ∧
    (¬ (96 ≤ l ∧ l ≤ 105) → ¬ (-105 ≤ l ∧ l ≤ -96) → adjustLon (some l) = none) ∧
    adjustLon (some (203 / 2)) = some (-(203 / 2)) ∧
    adjustLon (some 47) = none := by
  refine ⟨?_, ?_, ?_, ?_, ?_⟩
  · intro h
    simp [filterLat, h]
  · intro h1 h2
    simp [adjustLon, h1, h2]
  · intro h1 h2
    simp [adjustLon, h1, h2]
  · norm_num [adjustLon]
  · norm_num [adjustLon]

/-- Claim C6 witness: a latitude of 44 is discarded; 101.5 as longitude
is stored as -101.5. -/
theorem claim_C6_witness :
    filterLat (some 44) = none ∧ adjustLon (some (203 / 2)) = some (-(203 / 2)) :=
  ⟨(claim_C6 44).1 (by norm_num), (claim_C6 44).2.2.2.1⟩

/-- Claim C2 fails as stated: the seven-digit candidate 1234567 has no
alphabetic character and a digit count that is neither 10 nor 14, yet
normalization rejects it (None) instead of returning it unmodified,
because counts below eight are rejected. -/
theorem claim_C2_counterexample :
    hasAsciiAlpha (stripAllWs "1234567") = false ∧
    (apiDigits "1234567").length = 7 ∧
    normalize_api "1234567" ≠ some (stripAllWs "1234567") ∧
    normalize_api "1234567" = none := by
  exact ⟨by decide, by decide, by decide, by decide⟩

/-- Claim C2 (amended): for a candidate without alphabetic characters
whose digit count is neither 10 nor 14, normalization returns the
whitespace-stripped raw string unmodified when the count is at least
eight, and rejects the candidate (None) when the count is below eight. -/
theorem claim_C2 (raw : String)
    (hA : hasAsciiAlpha (stripAllWs raw) = false)
    (h10 : (apiDigits raw).length ≠ 10) (h14 : (apiDigits raw).length ≠ 14) :
    (8 ≤ (apiDigits raw).length → normalize_api raw = some (stripAllWs raw)) ∧
    ((apiDigits raw).length < 8 → normalize_api raw = none) := by
  constructor
  · intro h8
    simp only [normalize_api, hA, Bool.false_eq_true, if_false]
    rw [if_neg (by omega), if_neg h14, if_neg h10]
  · intro h8
    simp only [normalize_api, hA, Bool.false_eq_true, if_false]
    rw [if_pos h8]

/-- Claim C2 witness: a nine-digit dashed candidate is returned
unmodified. -/
theorem claim_C2_witness :
    8 ≤ (apiDigits "123-45-6789").length ∧
    normalize_api "123-45-6789" = some "123-45-6789" := by
  have h := (claim_C2 "123-45-6789" (by decide) (by decide) (by decide)).1 (by decide)
  exact ⟨by decide, by rw [h]; decide⟩

def docD0 : Doc := ⟨"abc.pdf", "Mud Record", [⟨"", []⟩]⟩

def docD1 : Doc := ⟨"well_12345.pdf", "", [⟨"", [("NDIC File Number", "12345")]⟩]⟩

/-- Claim C3 fails as stated: on a document whose well name is the
label-only residue Mud Record, the cleaner clears the name, but the
record carries the empty string as a present value (and the bound insert
parameter is the empty string, not NULL). -/
theorem claim_C3_counterexample :
    cleanWellName "Mud Record" = "" ∧
    (extract_well_row docD0).well_name = "" ∧
    (insertRow (extract_well_row docD0)).well_name = some "" ∧
    (insertRow (extract_well_row docD0)).well_name ≠ none := by
  exact ⟨by decide, by decide, by decide, by decide⟩

/-- Claim C3 (amended): the optional fields operator, county, shl_desc,
latitude, longitude and datum are represented as null when absent, but
the well name (and the well number) is always stored as a present
string, with the empty string standing for a cleared or missing value,
and an unresolvable identity is the literal sentinel UNKNOWN; on the
all-absent document docD0 the six optional fields are null while
well_name is the present empty string. -/
theorem claim_C3 (doc : Doc) :
    ((insertRow (extract_well_row doc)).operator = (extract_well_row doc).operator ∧
      (insertRow (extract_well_row doc)).county = (extract_well_row doc).county ∧
      (insertRow (extract_well_row doc)).shl_desc = (extract_well_row doc).shl_desc ∧
      (insertRow (extract_well_row doc)).latitude = (extract_well_row doc).latitude ∧
      (insertRow (extract_well_row doc)).longitude = (extract_well_row doc).longitude ∧
      (insertRow (extract_well_row doc)).datum = (extract_well_row doc).datum) ∧
    (insertRow (extract_well_row doc)).well_name = some (extract_well_row doc).well_name ∧
    (insertRow (extract_well_row doc)).well_number =
      some (extract_well_row doc).well_number ∧
    ((extract_well_row docD0).operator = none ∧
      (extract_well_row docD0).county = none ∧
      (extract_well_row docD0).shl_desc = none ∧
      (extract_well_row docD0).latitude = none ∧
      (extract_well_row docD0).longitude = none ∧
      (extract_well_row docD0).datum = none ∧
      (extract_well_row docD0).well_name = "" ∧
      (extract_well_row docD0).api_number = "UNKNOWN") := by
  refine ⟨⟨rfl, rfl, rfl, rfl, rfl, rfl⟩, rfl, rfl, ?_⟩
  exact ⟨by decide, by decide, by decide, by decide, by decide, by decide, by decide,
    by decide⟩

/-- Claim C3 witness at the all-absent document. -/
theorem claim_C3_witness :
    (insertRow (extract_well_row docD0)).well_name = some "" ∧
    (insertRow (extract_well_row docD0)).operator = none := by
  have h := claim_C3 docD0
  constructor
  · rw [h.2.1, h.2.2.2.2.2.2.2.2.2.1]
  · rw [h.1.1, h.2.2.2.1]

/-- Auxiliary: the head surviving List.dropWhile falsifies the predicate. -/
theorem dropWhileHeadFalse {α : Type} (p : α → Bool) :
    ∀ (l : List α) (d : α) (rest : List α), l.dropWhile p = d :: rest → p d = false := by
  intro l
  induction l with
  | nil =>
    intro d rest h
    simp [List.dropWhile] at h
  | cons a t ih =>
    intro d rest h
    rw [List.dropWhile_cons] at h
    by_cases hp : p a
    · rw [if_pos hp] at h
      exact ih d rest h
    · rw [if_neg hp] at h
      injection h with h1 h2
      subst h1
      simpa using hp

/-- Auxiliary for claim C5: in seek mode, when every nonblank non-header
line fails the positional row grammar, the scanner yields no record, at
every fuel. -/
theorem stimLoopSeekNil : ∀ (fuel : Nat) (ls : List String),
    (∀ l ∈ ls, blankB l = false → stimHdrB l = false → reSearchG stimRowRE l = none) →
    stimLoop fuel .seek ls = [] := by
  intro fuel
  induction fuel with
  | zero =>
    intro ls _
    rfl
  | succ fuel ih =>
    intro ls h
    match ls with
    | [] => rfl
    | l :: r =>
      simp only [stimLoop]
      by_cases hh : stimHdrB l
      · rw [if_pos hh]
        cases hdrop : r.dropWhile (fun x => blankB x || stimHdrB x) with
        | nil => rfl
        | cons d rest =>
          have hdf : (blankB d || stimHdrB d) = false :=
            dropWhileHeadFalse _ r d rest hdrop
          have hsub : d :: rest ⊆ r := by
            rw [← hdrop]
            exact (List.dropWhile_sublist _).subset
          have hb : blankB d = false := by
            rcases Bool.or_eq_false_iff.mp hdf with ⟨h1, h2⟩
            exact h1
          have hs : stimHdrB d = false := by
            rcases Bool.or_eq_false_iff.mp hdf with ⟨h1, h2⟩
            exact h2
          have hnone : reSearchG stimRowRE d = none :=
            h d (List.mem_cons_of_mem l (hsub (List.mem_cons_self d rest))) hb hs
          show (match reSearchG stimRowRE d with
            | none => stimLoop fuel SMode.seek rest
            | some g => stimLoop fuel (SMode.body (mkStimRec g) [] false) rest) = []
          rw [hnone]
          exact ih rest (fun x hx hbx hsx =>
            h x (List.mem_cons_of_mem l (hsub (List.mem_cons_of_mem d hx))) hbx hsx)
      · rw [if_neg hh]
        exact ih r (fun x hx hbx hsx => h x (List.mem_cons_of_mem l hx) hbx hsx)

/-- Claim C5: the parser is a total function of the page text, and on a
page where every nonblank, non-header line fails the positional row
grammar it returns the empty record sequence, simply advancing past each
non-matching line. -/
theorem claim_C5 (page : String)
    (h : ∀ l ∈ pySplitlines page, blankB l = false → stimHdrB l = false →
      reSearchG stimRowRE l = none) :
    parse_stimulation page = [] :=
  stimLoopSeekNil (2 * (pySplitlines page).length + 2) (pySplitlines page) h

def pageC5 : String := "Date Stimulated\ngarbage line"

/-- Claim C5 witness: a header followed by a line failing the row
grammar yields zero records. -/
theorem claim_C5_witness : parse_stimulation pageC5 = [] :=
  claim_C5 pageC5 (by decide)

/-- Claim C9: with no API recovered, the public key is NDIC- followed by
the resolved well number, or the literal UNKNOWN when that number is
empty; a well-number candidate is accepted only when its digit value
lies in 1000..199999; when every candidate fails, the number is
synthesized from the digits of the source file name stem; and every
stimulation row of the document is inserted under the same resolved
key. -/
theorem claim_C9 (doc : Doc) (v : String) :
    (resolveApi doc = none →
      (extract_well_row doc).api_number =
        if resolveWellNumber doc = "" then "UNKNOWN"
        else "NDIC-" ++ resolveWellNumber doc) ∧
    (∀ d, valid_well_num (some v) = some d →
      d = digitsOnly v ∧ d ≠ "" ∧ 1000 ≤ natOfStr d ∧ natOfStr d ≤ 199999) ∧
    ((valid_well_num (mergedGet doc.pages "NDIC File Number") <|>
        valid_well_num (mergedGet doc.pages "ND Well File #") <|>
        valid_well_num (mergedGet doc.pages "Well or Facility No") <|>
        valid_well_num (searchPats wnumPats (allTexts doc.pages))) = none →
      resolveWellNumber doc = digitsOnly (pathStem doc.pdf_filename)) ∧
    (∀ ins ∈ stimInserts doc, ins.api_number = (extract_well_row doc).api_number) := by
  refine ⟨?_, ?_, ?_, ?_⟩
  · intro h
    simp only [extract_well_row, h, truthy]
  · intro d hd
    simp only [valid_well_num] at hd
    split_ifs at hd with h1 h2
    · injection hd with hd2
      exact hd2 ▸ ⟨rfl, h2.1, h2.2.1, h2.2.2⟩
  · intro h
    simp only [resolveWellNumber, h]
  · intro ins hins
    simp only [stimInserts, List.mem_flatMap, List.mem_map] at hins
    obtain ⟨p, hp, r, hr, rfl⟩ := hins
    rfl

/-- Claim C9 witness: a document carrying only an NDIC File Number field
resolves to the key NDIC-12345, and a stimulation page in such a
document is keyed the same way. -/
theorem claim_C9_witness :
    (extract_well_row docD1).api_number = "NDIC-12345" := by
  have h := (claim_C9 docD1 "12345").1 (by decide)
  rw [h]
  decide

def dmsN : String := "47° 30" ++ String.singleton apoC ++ " 0 N"

def dmsW : String := "101° 15" ++ String.singleton apoC ++ " 0 W"

def dmsQuotedN : String := "47° 30" ++ String.singleton apoC ++ " 0" ++
  String.singleton quoteC ++ " N"

/-- Claim C8 fails as stated: the spec example carries a double-quote
seconds mark, which the DMS grammar of the source does not accept (the
hemisphere letter must follow the seconds digits up to whitespace), so
the example string converts to nothing rather than to 47.5. -/
theorem claim_C8_counterexample :
    dms_to_decimal dmsQuotedN = none ∧ dms_to_decimal dmsQuotedN ≠ some (95 / 2) := by
  exact ⟨by decide, by decide⟩

unseal Rat.add Rat.mul Rat.inv Rat.sub in
/-- Claim C8 (amended): for every string whose stripped form matches the
DMS grammar of the source (degrees, degree sign, minutes, minute mark,
decimal seconds, hemisphere letter, with no seconds mark), the
conversion yields degrees plus minutes over sixty plus seconds over
thirty-six hundred, negated exactly for hemisphere S or W, rounded to
seven decimals; in particular 47 degrees 30 minutes 0 seconds North
gives 47.5 and 101 degrees 15 minutes 0 seconds West gives -101.25,
while the double-quoted spec examples match nothing. -/
theorem claim_C8 :
    (∀ (s : String) (g : GroupMap) (dv mv sv : ℚ),
      reMatchG dmsRE (pyStrip s) = some g →
      pyFloatDigits? (grpD g 1) = some dv →
      pyFloatDigits? (grpD g 2) = some mv →
      pyFloatDigits? (grpD g 3) = some sv →
      dms_to_decimal s =
        some (round7 (if pyUpper (grpD g 4) = "S" ∨ pyUpper (grpD g 4) = "W"
          then -(dv + mv / 60 + sv / 3600) else dv + mv / 60 + sv / 3600))) ∧
    dms_to_decimal dmsN = some (95 / 2) ∧
    dms_to_decimal dmsW = some (-(405 / 4)) := by
  refine ⟨?_, by decide, by decide⟩
  intro s g dv mv sv hm h1 h2 h3
  simp only [dms_to_decimal, hm, h1, h2, h3]

def dmsGN : GroupMap := [(4, "N"), (3, "0"), (2, "30"), (1, "47")]

unseal Rat.add Rat.mul Rat.inv Rat.sub in
/-- Claim C8 witness: the amended statement applied to the well-formed
North example. -/
theorem claim_C8_witness : dms_to_decimal dmsN = some (round7 (47 + 30 / 60 + 0 / 3600)) := by
  have h := claim_C8.1 dmsN dmsGN 47 30 0 (by decide) (by decide) (by decide) (by decide)
  rw [h]
  decide

def page8 : String := "Date Stimulated Formation Top Bottom Stages Volume Units\n5/1/2020 Bakken 9000 9500 30 1,234 Barrels\nType Treatment\nSand Frac 100000 8000 50.5\nDetails\nline one\nline two"

def stimRec8 : StimRec :=
  { date_stimulated := "5/1/2020"
    formation := "Bakken"
    top_ft := some 9000
    bottom_ft := some 9500
    stages := 30
    volume := some 1234
    volume_units := "Barrels"
    treatment_type := some "Sand Frac"
    acid_percent := none
    lbs_proppant := some 100000
    max_pressure := some 8000
    max_rate := some (101 / 2)
    details := some "line one\nline two" }

/-- The present numeric fields of a matched treatment row, in order. -/
def treatNums (g : GroupMap) : List ℚ :=
  [to_float (grpO g 2), to_float (grpO g 3), to_float (grpO g 4),
    to_float (grpO g 5)].filterMap id

unseal Rat.add Rat.mul Rat.inv Rat.sub in
/-- Claim C4: a matched treatment line assigns its numeric fields
right-aligned by count - four values to (acid_percent, lbs_proppant,
max_pressure, max_rate), three to (lbs_proppant, max_pressure, max_rate)
with acid_percent absent, one or two only the first value to
lbs_proppant - and the single-record page of the spec's section eight
yields exactly one record with acid_percent absent, the three numbers in
lbs_proppant, max_pressure and max_rate, and details the two lines
newline-joined. -/
theorem claim_C4 :
    (∀ (rec : StimRec) (t : String) (g : GroupMap),
      reMatchG treatRowRE (pyStrip t) = some g →
      ((treatNums g).length = 4 →
        applyTreat rec t = { rec with
          treatment_type := some (pyStrip (grpD g 1))
          acid_percent := (treatNums g).get? 0
          lbs_proppant := (treatNums g).get? 1
          max_pressure := (treatNums g).get? 2
          max_rate := (treatNums g).get? 3 }) ∧
      ((treatNums g).length = 3 →
        applyTreat rec t = { rec with
          treatment_type := some (pyStrip (grpD g 1))
          lbs_proppant := (treatNums g).get? 0
          max_pressure := (treatNums g).get? 1
          max_rate := (treatNums g).get? 2 }) ∧
      ((treatNums g).length = 1 ∨ (treatNums g).length = 2 →
        applyTreat rec t = { rec with
          treatment_type := some (pyStrip (grpD g 1))
          lbs_proppant := (treatNums g).get? 0 })) ∧
    parse_stimulation page8 = [stimRec8] := by
  refine ⟨?_, by decide⟩
  intro rec t g hm
  refine ⟨?_, ?_, ?_⟩
  · intro hlen
    simp only [treatNums] at hlen
    simp only [applyTreat, hm, treatNums]
    rw [if_pos hlen]
  · intro hlen
    simp only [treatNums] at hlen
    simp only [applyTreat, hm, treatNums]
    rw [if_neg (by simp [hlen]), if_pos hlen]
  · intro hlen
    simp only [treatNums] at hlen
    simp only [applyTreat, hm, treatNums]
    rcases hlen with hlen | hlen
    · rw [if_neg (by simp [hlen]), if_neg (by simp [hlen]),
        if_pos (by simp [hlen])]
    · rw [if_neg (by simp [hlen]), if_neg (by simp [hlen]),
        if_pos (by simp [hlen])]

def treatGC4 : GroupMap := [(4, "50.5"), (3, "8000"), (2, "100000"), (1, "Sand Frac")]

def recC4 : StimRec := mkStimRec []

unseal Rat.add Rat.mul Rat.inv Rat.sub in
/-- Claim C4 witness: the three-value treatment line of the section
eight page assigns right-aligned with acid_percent absent. -/
theorem claim_C4_witness :
    applyTreat recC4 "Sand Frac 100000 8000 50.5" = { recC4 with
      treatment_type := some "Sand Frac"
      lbs_proppant := some 100000
      max_pressure := some 8000
      max_rate := some (101 / 2) } := by
  have h := (claim_C4.1 recC4 "Sand Frac 100000 8000 50.5" treatGC4 (by decide)).2.1
    (by decide)
  rw [h]
  decide

/-! Character-class facts used for the API idempotence claim. -/

theorem dataMk (l : List Char) : (String.mk l).data = l := rfl

theorem digitNotPyWs {c : Char} (h : c.isDigit = true) : pyWs c = false := by
  by_contra hws
  rw [Bool.not_eq_false] at hws
  simp only [pyWs, Bool.or_eq_true, beq_iff_eq] at hws
  rcases hws with ((((((rfl | rfl) | rfl) | rfl) | rfl) | rfl) | rfl) <;>
    exact absurd h (by decide)

theorem digitNotAlpha {c : Char} (h : c.isDigit = true) : c.isAlpha = false := by
  simp only [Char.isDigit, decide_eq_true_eq, Bool.and_eq_true] at h
  simp only [Char.isAlpha, Char.isUpper, Char.isLower, Bool.or_eq_false_iff,
    Bool.and_eq_false_iff, decide_eq_false_iff_not]
  obtain ⟨h1, h2⟩ := h
  have h2n : c.val.toNat ≤ 57 := h2
  constructor
  · refine Or.inl ?_
    intro hge
    have hgen : 65 ≤ c.val.toNat := hge
    omega
  · refine Or.inl ?_
    intro hge
    have hgen : 97 ≤ c.val.toNat := hge
    omega

theorem fmt10Mem (d : List Char) (hd : ∀ c ∈ d, c.isDigit = true) :
    ∀ c ∈ (fmt10 d).data, c.isDigit = true ∨ c = '-' := by
  intro c hc
  simp only [fmt10, dataMk, List.mem_append, List.mem_cons] at hc
  rcases hc with h1 | h2 | h3 | h4 | h5
  · exact Or.inl (hd c (List.take_subset _ _ h1))
  · exact Or.inr h2
  · exact Or.inl (hd c (List.drop_subset _ _ (List.take_subset _ _ h3)))
  · exact Or.inr h4
  · exact Or.inl (hd c (List.drop_subset _ _ (List.take_subset _ _ h5)))

theorem fmt14Mem (d : List Char) (hd : ∀ c ∈ d, c.isDigit = true) :
    ∀ c ∈ (fmt14 d).data, c.isDigit = true ∨ c = '-' := by
  intro c hc
  simp only [fmt14, dataMk, List.mem_append, List.mem_cons] at hc
  rcases hc with h1 | h2 | h3 | h4 | h5 | h6 | h7 | h8 | h9
  · exact Or.inl (hd c (List.take_subset _ _ h1))
  · exact Or.inr h2
  · exact Or.inl (hd c (List.drop_subset _ _ (List.take_subset _ _ h3)))
  · exact Or.inr h4
  · exact Or.inl (hd c (List.drop_subset _ _ (List.take_subset _ _ h5)))
  · exact Or.inr h6
  · exact Or.inl (hd c (List.drop_subset _ _ (List.take_subset _ _ h7)))
  · exact Or.inr h8
  · exact Or.inl (hd c (List.drop_subset _ _ h9))

theorem noWsNoAlpha (s : String) (h : ∀ c ∈ s.data, c.isDigit = true ∨ c = '-') :
    stripAllWs s = s ∧ hasAsciiAlpha s = false := by
  constructor
  · show String.mk (s.data.filter (fun c => !pyWs c)) = s
    have he : s.data.filter (fun c => !pyWs c) = s.data := by
      apply List.filter_eq_self.mpr
      intro c hc
      rcases h c hc with hdig | rfl
      · simp [digitNotPyWs hdig]
      · decide
    rw [he]
  · simp only [hasAsciiAlpha, List.any_eq_false]
    intro c hc
    rcases h c hc with hdig | rfl
    · simp [digitNotAlpha hdig]
    · decide

theorem filterSeg (d : List Char) (hd : ∀ c ∈ d, c.isDigit = true)
    (l2 : List Char) (hsub : l2 ⊆ d) : l2.filter Char.isDigit = l2 :=
  List.filter_eq_self.mpr (fun c hc => hd c (hsub hc))

theorem fmt10Digits (d : List Char) (hd : ∀ c ∈ d, c.isDigit = true)
    (hl : d.length = 10) : apiDigits (fmt10 d) = d := by
  simp only [apiDigits, fmt10, dataMk]
  rw [List.filter_append, List.filter_cons_of_neg (by decide), List.filter_append,
    List.filter_cons_of_neg (by decide)]
  rw [filterSeg d hd _ (List.take_subset _ _),
    filterSeg d hd _ (fun c hc => List.drop_subset _ _ (List.take_subset _ _ hc)),
    filterSeg d hd _ (fun c hc => List.drop_subset _ _ (List.take_subset _ _ hc))]
  have h4 : (d.drop 5).take 5 = d.drop 5 :=
    List.take_of_length_le (by simp [List.length_drop, hl])
  have h3 : (d.drop 2).drop 3 = d.drop 5 := by rw [List.drop_drop]
  calc d.take 2 ++ ((d.drop 2).take 3 ++ (d.drop 5).take 5)
      = d.take 2 ++ ((d.drop 2).take 3 ++ (d.drop 2).drop 3) := by rw [h4, ← h3]
    _ = d.take 2 ++ d.drop 2 := by rw [List.take_append_drop]
    _ = d := List.take_append_drop 2 d

theorem fmt14Digits (d : List Char) (hd : ∀ c ∈ d, c.isDigit = true) :
    apiDigits (fmt14 d) = d := by
  simp only [apiDigits, fmt14, dataMk]
  rw [List.filter_append, List.filter_cons_of_neg (by decide), List.filter_append,
    List.filter_cons_of_neg (by decide), List.filter_append,
    List.filter_cons_of_neg (by decide), List.filter_append,
    List.filter_cons_of_neg (by decide)]
  rw [filterSeg d hd _ (List.take_subset _ _),
    filterSeg d hd _ (fun c hc => List.drop_subset _ _ (List.take_subset _ _ hc)),
    filterSeg d hd _ (fun c hc => List.drop_subset _ _ (List.take_subset _ _ hc)),
    filterSeg d hd _ (fun c hc => List.drop_subset _ _ (List.take_subset _ _ hc)),
    filterSeg d hd _ (List.drop_subset _ _)]
  have e12 : (d.drop 10).drop 2 = d.drop 12 := by rw [List.drop_drop]
  have e10 : (d.drop 5).drop 5 = d.drop 10 := by rw [List.drop_drop]
  have e5 : (d.drop 2).drop 3 = d.drop 5 := by rw [List.drop_drop]
  calc d.take 2 ++ ((d.drop 2).take 3 ++ ((d.drop 5).take 5 ++
        ((d.drop 10).take 2 ++ d.drop 12)))
      = d.take 2 ++ ((d.drop 2).take 3 ++ ((d.drop 5).take 5 ++
        ((d.drop 10).take 2 ++ (d.drop 10).drop 2))) := by rw [e12]
    _ = d.take 2 ++ ((d.drop 2).take 3 ++ ((d.drop 5).take 5 ++ (d.drop 5).drop 5)) := by
        rw [List.take_append_drop, e10]
    _ = d.take 2 ++ ((d.drop 2).take 3 ++ (d.drop 2).drop 3) := by
        rw [List.take_append_drop, e5]
    _ = d.take 2 ++ d.drop 2 := by rw [List.take_append_drop]
    _ = d := List.take_append_drop 2 d

theorem normalizeFmt10 (d : List Char) (hd : ∀ c ∈ d, c.isDigit = true)
    (hl : d.length = 10) : normalize_api (fmt10 d) = some (fmt10 d) := by
  obtain ⟨hstrip, halpha⟩ := noWsNoAlpha (fmt10 d) (fmt10Mem d hd)
  have hdig := fmt10Digits d hd hl
  simp only [normalize_api, hstrip, halpha, Bool.false_eq_true, if_false, hdig, hl]
  simp

theorem normalizeFmt14 (d : List Char) (hd : ∀ c ∈ d, c.isDigit = true)
    (hl : d.length = 14) : normalize_api (fmt14 d) = some (fmt14 d) := by
  obtain ⟨hstrip, halpha⟩ := noWsNoAlpha (fmt14 d) (fmt14Mem d hd)
  have hdig := fmt14Digits d hd
  simp only [normalize_api, hstrip, halpha, Bool.false_eq_true, if_false, hdig, hl]
  simp

/-- Claim C7: a non-alphabetic candidate with exactly ten digits D
normalizes to the dashed groups D 0:2, 2:5, 5:10, and one with fourteen
digits to the groups 0:2, 2:5, 5:10, 10:12, 12:14; normalizing the
resulting canonical string returns it unchanged (idempotence). -/
theorem claim_C7 (raw : String) :
    (hasAsciiAlpha (stripAllWs raw) = false → (apiDigits raw).length = 10 →
      normalize_api raw = some (fmt10 (apiDigits raw)) ∧
      normalize_api (fmt10 (apiDigits raw)) = some (fmt10 (apiDigits raw))) ∧
    (hasAsciiAlpha (stripAllWs raw) = false → (apiDigits raw).length = 14 →
      normalize_api raw = some (fmt14 (apiDigits raw)) ∧
      normalize_api (fmt14 (apiDigits raw)) = some (fmt14 (apiDigits raw))) := by
  have hd : ∀ c ∈ apiDigits raw, c.isDigit = true :=
    fun c hc => List.of_mem_filter hc
  constructor
  · intro hA h10
    refine ⟨?_, normalizeFmt10 _ hd h10⟩
    simp only [normalize_api, hA, Bool.false_eq_true, if_false]
    rw [if_neg (by omega), if_neg (by omega), if_pos h10]
  · intro hA h14
    refine ⟨?_, normalizeFmt14 _ hd h14⟩
    simp only [normalize_api, hA, Bool.false_eq_true, if_false]
    rw [if_neg (by omega), if_pos h14]

/-- Claim C7 witness: a ten-digit candidate reformats to the dashed
canonical form, and renormalizing that form is the identity. -/
theorem claim_C7_witness :
    normalize_api "3305304383" = some "33-053-04383" ∧
    normalize_api "33-053-04383" = some "33-053-04383" := by
  have h := (claim_C7 "3305304383").1 (by decide) (by decide)
  have e : fmt10 (apiDigits "3305304383") = "33-053-04383" := by decide
  obtain ⟨h1, h2⟩ := h
  rw [e] at h1 h2
  exact ⟨h1, h2⟩
